import Mathlib

/-!
Verification of `tf2_ros::TransformListener`
(src/tf2_ros/include/tf2_ros/transform_listener.h).

The listener subscribes to the dynamic topic `tf_ns + "/tf"` and the static
topic `tf_ns + "/tf_static"`, demultiplexes batches of transform
announcements into an external `tf2::BufferCore`, and optionally runs a
dedicated background thread with an isolated callback group and a
single-threaded executor.

The embedding below translates `detail::get_default_transform_listener_sub_options`,
`detail::get_default_transform_listener_static_sub_options` and
`TransformListener::init` directly from the header.  The effects performed by
`init` (callback-group creation, subscription creation, executor creation and
binding, thread start, `setUsingDedicatedThread`) are recorded as an ordered
event trace, in the program order of the C++ source, together with the
resulting member-field state.  `rclcpp::create_subscription` and
`std::thread` construction are fallible in C++ (they throw); `init` has no
handler, so any such failure propagates and aborts construction — modelled
with `Except`, driven by an environment `Env` saying which external
operations succeed.

The bodies of `TransformListener::subscription_callback` and
`TransformListener::~TransformListener` live in `transform_listener.cpp`,
which is not among the provided sources (the header only declares them at
lines 165 and 231); those two operations are modelled from the spec, as
marked on their doc comments.
-/

namespace tf2_ros

/-- `rclcpp::QosPolicyKind`, restricted to the kinds the header names. -/
inductive QosPolicyKind where
  | Depth
  | Durability
  | History
  | Reliability
deriving DecidableEq, Repr

/-- `rclcpp::IntraProcessSetting`. -/
inductive IntraProcessSetting where
  | NodeDefault
  | Enable
  | Disable
deriving DecidableEq, Repr

/-- `rclcpp::CallbackGroupType`. -/
inductive CallbackGroupType where
  | MutuallyExclusive
  | Reentrant
deriving DecidableEq, Repr

/-- The fields of `rclcpp::SubscriptionOptionsWithAllocator` the header
touches: the QoS-overriding whitelist, the intra-process switch, and the
callback group (a group identifier; `none` is rclcpp's default of no
explicit group).  rclcpp's defaults are an empty overriding list, the
`NodeDefault` intra-process setting and no callback group. -/
structure SubscriptionOptions where
  qos_overriding_options : List QosPolicyKind := []
  use_intra_process_comm : IntraProcessSetting := IntraProcessSetting.NodeDefault
  callback_group : Option Nat := none
deriving DecidableEq, Repr

namespace detail

/-- `detail::get_default_transform_listener_sub_options`
(transform_listener.h lines 54-73): allow overriding Depth, Durability,
History, Reliability; disable intra-process communication. -/
def get_default_transform_listener_sub_options : SubscriptionOptions :=
  { qos_overriding_options :=
      [QosPolicyKind.Depth, QosPolicyKind.Durability,
       QosPolicyKind.History, QosPolicyKind.Reliability]
    use_intra_process_comm := IntraProcessSetting.Disable }

/-- `detail::get_default_transform_listener_static_sub_options`
(transform_listener.h lines 75-93): allow overriding Depth, History,
Reliability (not Durability); disable intra-process communication. -/
def get_default_transform_listener_static_sub_options : SubscriptionOptions :=
  { qos_overriding_options :=
      [QosPolicyKind.Depth, QosPolicyKind.History, QosPolicyKind.Reliability]
    use_intra_process_comm := IntraProcessSetting.Disable }

end detail

/-- One `geometry_msgs::msg::TransformStamped` announcement, with the
fields relevant to buffer insertion. -/
structure TransformStamped where
  frame_id : String
  child_frame_id : String
  stamp : Nat
  authority : String
deriving DecidableEq, Repr

/-- `tf2_msgs::msg::TFMessage`: an ordered batch of announcements. -/
abbrev TFMessage := List TransformStamped

/-- Observable state of the external `tf2::BufferCore` collaborator:
the dedicated-thread flag and the sequence of successfully inserted
transforms, each paired with the `is_static` flag it was inserted with. -/
structure BufferState where
  usingDedicatedThread : Bool
  inserted : List (TransformStamped × Bool)
deriving DecidableEq, Repr

/-- `tf2::BufferCore::setUsingDedicatedThread`. -/
def setUsingDedicatedThread (b : Bool) (buf : BufferState) : BufferState :=
  { buf with usingDedicatedThread := b }

/-- `tf2::BufferCore::setTransform` as seen through the spec interface
`insertTransform(announcement, isStatic) -> Ok | Error`.  Whether the
external buffer accepts a given announcement (it rejects e.g. malformed
frame identifiers or self-parenting) is out of scope, so it is a
parameter `ok`.  Returns the new buffer state and the success result. -/
def insertTransform (ok : TransformStamped → Bool) (buf : BufferState)
    (t : TransformStamped) (is_static : Bool) : BufferState × Bool :=
  if ok t then
    ({ buf with inserted := buf.inserted ++ [(t, is_static)] }, true)
  else
    (buf, false)

/-- Result of processing one batch: new buffer state, number of successful
insertions, number of diagnostics emitted (one per failed insertion), and
number of entries processed. -/
structure OnBatchResult where
  buf : BufferState
  successes : Nat
  diagnostics : Nat
  processed : Nat
deriving DecidableEq, Repr

/-- Modelled from the spec: the body of
`TransformListener::subscription_callback` is in `transform_listener.cpp`,
which is not among the provided sources (the header only declares it at
line 231).  Spec §4.1, operation `onBatch(message, isStatic)`: for each
announcement in the batch call `insertTransform(announcement, isStatic)`;
on a failure result, log a diagnostic and continue with the remaining
entries — a single bad entry never aborts the batch. -/
def subscription_callback (ok : TransformStamped → Bool) (buf : BufferState)
    (msg : TFMessage) (is_static : Bool) : OnBatchResult :=
  match msg with
  | [] => { buf := buf, successes := 0, diagnostics := 0, processed := 0 }
  | t :: rest =>
    let step := insertTransform ok buf t is_static
    let r := subscription_callback ok step.1 rest is_static
    { buf := r.buf
      successes := (if step.2 then 1 else 0) + r.successes
      diagnostics := (if step.2 then 0 else 1) + r.diagnostics
      processed := 1 + r.processed }

/-- One `rclcpp::Subscription` handle as created by `init`: the resolved
topic name, the `is_static` flag that `std::bind` fixed into its callback
at registration time (transform_listener.h lines 186-189), the QoS profile
it was created with, and its subscription options. -/
structure Subscription where
  topic : String
  bound_is_static : Bool
  qos : Nat
  options : SubscriptionOptions
deriving DecidableEq, Repr

/-- Delivering a batch to a subscription invokes the bound callback: the
`is_static` argument is the flag fixed at registration, independent of the
message content. -/
def deliver (ok : TransformStamped → Bool) (buf : BufferState)
    (sub : Subscription) (msg : TFMessage) : OnBatchResult :=
  subscription_callback ok buf msg sub.bound_is_static

/-- The effects `TransformListener::init` performs, in program order. -/
inductive Event where
  | createCallbackGroup (typ : CallbackGroupType) (autoAdd : Bool) (gid : Nat)
  | createSubscription (topic : String) (bound_is_static : Bool)
      (qos : Nat) (opts : SubscriptionOptions)
  | createExecutor (singleThreaded : Bool) (eid : Nat)
  | addCallbackGroup (eid : Nat) (gid : Nat)
  | startThread (tid : Nat)
  | setUsingDedicatedThreadCall (b : Bool)
deriving DecidableEq, Repr

/-- Member-field state of a fully constructed `TransformListener`. -/
structure ListenerState where
  spin_thread_ : Bool
  dedicated_listener_thread_ : Option Nat
  executor_ : Option Nat
  callback_group_ : Option Nat
  message_subscription_tf_ : Subscription
  message_subscription_tf_static_ : Subscription
deriving DecidableEq, Repr

/-- Successful outcome of `init`: the event trace, the listener's member
fields, and the buffer state after the `setUsingDedicatedThread` call (if
any). -/
structure InitResult where
  trace : List Event
  st : ListenerState
  buf : BufferState
deriving DecidableEq, Repr

/-- Which external operations succeed: whether
`rclcpp::create_subscription` succeeds for a given topic, and whether
`std::thread` construction succeeds.  In C++ both signal failure by
throwing; `init` has no handler. -/
structure Env where
  subCreateOk : String → Bool
  threadStartOk : Bool

/-- The environment in which every external operation succeeds. -/
def Env.allOk : Env :=
  { subCreateOk := fun _ => true, threadStartOk := true }

/-- `rclcpp::create_subscription`, fallible: on success yields the handle
with the topic, the flag bound into the callback, the QoS and the options
it was created with. -/
def createSubscriptionE (env : Env) (topic : String) (bound_is_static : Bool)
    (qos : Nat) (opts : SubscriptionOptions) : Except String Subscription :=
  if env.subCreateOk topic then
    Except.ok { topic := topic, bound_is_static := bound_is_static,
                qos := qos, options := opts }
  else
    Except.error ("failed to create subscription on " ++ topic)

/-- The default of the `tf_ns` parameter of `init`
(transform_listener.h line 179). -/
def default_tf_ns : String := ""

/-- `TransformListener::init` (transform_listener.h lines 168-228),
translated line by line.

With `spin_thread = true` (lines 191-216): create one callback group of
type `MutuallyExclusive` with `automatically_add_to_executor = false`;
copy the caller's options and overwrite their callback group with the new
group; create the `/tf` subscription (callback bound with `is_static =
false`) and the `/tf_static` subscription (callback bound with `is_static
= true`); create a `SingleThreadedExecutor`; add the callback group to it;
start the dedicated listener thread running the executor; finally call
`buffer_.setUsingDedicatedThread(true)`.

With `spin_thread = false` (lines 217-227): create the two subscriptions
with the caller's options unchanged; no group, executor or thread is
created and the buffer flag is not touched. -/
def TransformListener.init (env : Env) (buffer_ : BufferState)
    (spin_thread : Bool) (qos static_qos : Nat)
    (options static_options : SubscriptionOptions) (tf_ns : String) :
    Except String InitResult :=
  if spin_thread then
    let gid : Nat := 0
    let tf_options := { options with callback_group := some gid }
    let tf_static_options := { static_options with callback_group := some gid }
    match createSubscriptionE env (tf_ns ++ "/tf") false qos tf_options with
    | Except.error e => Except.error e
    | Except.ok sub_tf =>
      match createSubscriptionE env (tf_ns ++ "/tf_static") true static_qos
          tf_static_options with
      | Except.error e => Except.error e
      | Except.ok sub_tf_static =>
        if env.threadStartOk then
          Except.ok
            { trace :=
                [Event.createCallbackGroup CallbackGroupType.MutuallyExclusive
                   false gid,
                 Event.createSubscription (tf_ns ++ "/tf") false qos tf_options,
                 Event.createSubscription (tf_ns ++ "/tf_static") true
                   static_qos tf_static_options,
                 Event.createExecutor true 0,
                 Event.addCallbackGroup 0 gid,
                 Event.startThread 0,
                 Event.setUsingDedicatedThreadCall true]
              st :=
                { spin_thread_ := true
                  dedicated_listener_thread_ := some 0
                  executor_ := some 0
                  callback_group_ := some gid
                  message_subscription_tf_ := sub_tf
                  message_subscription_tf_static_ := sub_tf_static }
              buf := setUsingDedicatedThread true buffer_ }
        else
          Except.error "failed to start dedicated listener thread"
  else
    match createSubscriptionE env (tf_ns ++ "/tf") false qos options with
    | Except.error e => Except.error e
    | Except.ok sub_tf =>
      match createSubscriptionE env (tf_ns ++ "/tf_static") true static_qos
          static_options with
      | Except.error e => Except.error e
      | Except.ok sub_tf_static =>
        Except.ok
          { trace :=
              [Event.createSubscription (tf_ns ++ "/tf") false qos options,
               Event.createSubscription (tf_ns ++ "/tf_static") true
                 static_qos static_options]
            st :=
              { spin_thread_ := false
                dedicated_listener_thread_ := none
                executor_ := none
                callback_group_ := none
                message_subscription_tf_ := sub_tf
                message_subscription_tf_static_ := sub_tf_static }
            buf := buffer_ }

/-- Teardown effects, in order. -/
inductive DtorEvent where
  | cancelExecutor
  | joinThread
  | destructionComplete
deriving DecidableEq, Repr

/-- Modelled from the spec: the body of
`TransformListener::~TransformListener` is in `transform_listener.cpp`,
which is not among the provided sources (the header only declares it at
lines 164-165).  Spec §4.2 Shutdown: destruction stops the execution loop
and joins the background thread before the listener object is destroyed;
in external (non-dedicated) mode there is no thread to stop. -/
def TransformListener.destructor (st : ListenerState) : List DtorEvent :=
  if st.dedicated_listener_thread_.isSome then
    [DtorEvent.cancelExecutor, DtorEvent.joinThread,
     DtorEvent.destructionComplete]
  else
    [DtorEvent.destructionComplete]

/-- Event discriminators used to state trace properties. -/
def Event.isSetUsingDedicatedThreadCall : Event → Bool
  | Event.setUsingDedicatedThreadCall _ => true
  | _ => false

def Event.isStartThread : Event → Bool
  | Event.startThread _ => true
  | _ => false

def Event.isCreateCallbackGroup : Event → Bool
  | Event.createCallbackGroup _ _ _ => true
  | _ => false

def Event.isCreateSubscription : Event → Bool
  | Event.createSubscription _ _ _ _ => true
  | _ => false

def Event.isCreateExecutor : Event → Bool
  | Event.createExecutor _ _ => true
  | _ => false

def Event.isAddCallbackGroup : Event → Bool
  | Event.addCallbackGroup _ _ => true
  | _ => false

/-! ### Helper lemmas -/

/-- Batch processing appends exactly the accepted announcements, each
tagged with the `is_static` flag the callback was invoked with. -/
theorem subscription_callback_inserted (ok : TransformStamped → Bool)
    (msg : TFMessage) : ∀ (buf : BufferState) (b : Bool),
    (subscription_callback ok buf msg b).buf.inserted =
      buf.inserted ++ (msg.filter ok).map (fun t => (t, b)) := by
  induction msg with
  | nil => intro buf b; simp [subscription_callback]
  | cons t rest ih =>
    intro buf b
    by_cases h : ok t <;>
      simp [subscription_callback, insertTransform, h, ih]

/-- Batch processing never touches the buffer's dedicated-thread flag. -/
theorem subscription_callback_flag (ok : TransformStamped → Bool)
    (msg : TFMessage) : ∀ (buf : BufferState) (b : Bool),
    (subscription_callback ok buf msg b).buf.usingDedicatedThread =
      buf.usingDedicatedThread := by
  induction msg with
  | nil => intro buf b; simp [subscription_callback]
  | cons t rest ih =>
    intro buf b
    by_cases h : ok t <;>
      simp [subscription_callback, insertTransform, h, ih]

/-- Counts produced by one batch: successes are the accepted entries,
diagnostics the rejected ones, and every entry is processed. -/
theorem subscription_callback_counts (ok : TransformStamped → Bool)
    (msg : TFMessage) : ∀ (buf : BufferState) (b : Bool),
    (subscription_callback ok buf msg b).successes = msg.countP ok ∧
    (subscription_callback ok buf msg b).diagnostics =
      msg.countP (fun t => !(ok t)) ∧
    (subscription_callback ok buf msg b).processed = msg.length := by
  induction msg with
  | nil => intro buf b; simp [subscription_callback]
  | cons t rest ih =>
    intro buf b
    by_cases h : ok t <;>
      simp [subscription_callback, insertTransform, h, ih, List.countP_cons] <;>
      omega

theorem countP_ok_add_countP_not (ok : TransformStamped → Bool)
    (msg : TFMessage) :
    msg.countP ok + msg.countP (fun t => !(ok t)) = msg.length := by
  induction msg with
  | nil => rfl
  | cons t rest ih =>
    by_cases h : ok t <;> simp [List.countP_cons, h] <;> omega

/-- The result `init` yields in an environment where every external
operation succeeds. -/
def initOkResult (buffer_ : BufferState) (spin_thread : Bool)
    (qos static_qos : Nat) (options static_options : SubscriptionOptions)
    (tf_ns : String) : InitResult :=
  if spin_thread then
    let tf_options := { options with callback_group := some 0 }
    let tf_static_options := { static_options with callback_group := some 0 }
    { trace :=
        [Event.createCallbackGroup CallbackGroupType.MutuallyExclusive false 0,
         Event.createSubscription (tf_ns ++ "/tf") false qos tf_options,
         Event.createSubscription (tf_ns ++ "/tf_static") true static_qos
           tf_static_options,
         Event.createExecutor true 0,
         Event.addCallbackGroup 0 0,
         Event.startThread 0,
         Event.setUsingDedicatedThreadCall true]
      st :=
        { spin_thread_ := true
          dedicated_listener_thread_ := some 0
          executor_ := some 0
          callback_group_ := some 0
          message_subscription_tf_ :=
            { topic := tf_ns ++ "/tf", bound_is_static := false,
              qos := qos, options := tf_options }
          message_subscription_tf_static_ :=
            { topic := tf_ns ++ "/tf_static", bound_is_static := true,
              qos := static_qos, options := tf_static_options } }
      buf := setUsingDedicatedThread true buffer_ }
  else
    { trace :=
        [Event.createSubscription (tf_ns ++ "/tf") false qos options,
         Event.createSubscription (tf_ns ++ "/tf_static") true static_qos
           static_options]
      st :=
        { spin_thread_ := false
          dedicated_listener_thread_ := none
          executor_ := none
          callback_group_ := none
          message_subscription_tf_ :=
            { topic := tf_ns ++ "/tf", bound_is_static := false,
              qos := qos, options := options }
          message_subscription_tf_static_ :=
            { topic := tf_ns ++ "/tf_static", bound_is_static := true,
              qos := static_qos, options := static_options } }
      buf := buffer_ }

/-- In the all-successful environment, `init` succeeds with
`initOkResult`. -/
theorem init_allOk (buf : BufferState) (spin : Bool) (qos static_qos : Nat)
    (options static_options : SubscriptionOptions) (tf_ns : String) :
    TransformListener.init Env.allOk buf spin qos static_qos options
        static_options tf_ns =
      Except.ok (initOkResult buf spin qos static_qos options static_options
        tf_ns) := by
  cases spin <;> rfl

/-! ### Claim theorems -/

/-- C9: The default construction-time subscription options for the static
topic disable intra-process delivery. -/
theorem static_options_disable_intra_process :
    detail.get_default_transform_listener_static_sub_options.use_intra_process_comm =
      IntraProcessSetting.Disable := rfl

/-- C10: The default subscription options for the dynamic topic permit
runtime overriding of the Depth, Durability, History and Reliability QoS
policies, while the defaults for the static topic permit only Depth,
History and Reliability — Durability is not overridable for the static
subscription under the defaults — and the dynamic default options also
disable intra-process delivery. -/
theorem default_qos_overriding_policies :
    detail.get_default_transform_listener_sub_options.qos_overriding_options =
      [QosPolicyKind.Depth, QosPolicyKind.Durability,
       QosPolicyKind.History, QosPolicyKind.Reliability] ∧
    detail.get_default_transform_listener_static_sub_options.qos_overriding_options =
      [QosPolicyKind.Depth, QosPolicyKind.History, QosPolicyKind.Reliability] ∧
    QosPolicyKind.Durability ∉
      detail.get_default_transform_listener_static_sub_options.qos_overriding_options ∧
    detail.get_default_transform_listener_sub_options.use_intra_process_comm =
      IntraProcessSetting.Disable := by
  refine ⟨rfl, rfl, ?_, rfl⟩
  decide

/-- C8: At construction the listener binds exactly two subscriptions, one
to the topic formed by concatenating the namespace string `tf_ns` with
"/tf" and one with "/tf_static", where `tf_ns` defaults to the empty
string; this holds in both execution modes. -/
theorem binds_two_namespaced_topics (buf : BufferState) (spin : Bool)
    (qos static_qos : Nat) (options static_options : SubscriptionOptions)
    (tf_ns : String) (r : InitResult)
    (h : TransformListener.init Env.allOk buf spin qos static_qos options
        static_options tf_ns = Except.ok r) :
    r.st.message_subscription_tf_.topic = tf_ns ++ "/tf" ∧
    r.st.message_subscription_tf_static_.topic = tf_ns ++ "/tf_static" ∧
    r.trace.countP Event.isCreateSubscription = 2 ∧
    default_tf_ns = "" := by
  rw [init_allOk] at h
  injection h with h
  subst h
  cases spin <;>
    simp [initOkResult, default_tf_ns, List.countP_cons,
      Event.isCreateSubscription]

theorem binds_two_namespaced_topics_inst :
    (TransformListener.init Env.allOk ⟨false, []⟩ true 10 1
        detail.get_default_transform_listener_sub_options
        detail.get_default_transform_listener_static_sub_options
        default_tf_ns =
      Except.ok (initOkResult ⟨false, []⟩ true 10 1
        detail.get_default_transform_listener_sub_options
        detail.get_default_transform_listener_static_sub_options
        default_tf_ns)) ∧
    (initOkResult ⟨false, []⟩ true 10 1
        detail.get_default_transform_listener_sub_options
        detail.get_default_transform_listener_static_sub_options
        default_tf_ns).st.message_subscription_tf_.topic =
      default_tf_ns ++ "/tf" := by
  refine ⟨rfl, ?_⟩
  exact (binds_two_namespaced_topics ⟨false, []⟩ true 10 1
    detail.get_default_transform_listener_sub_options
    detail.get_default_transform_listener_static_sub_options
    default_tf_ns _ rfl).1

/-- C1: Each subscription's callback carries an `is_static` flag fixed at
registration time: the dynamic subscription is registered with `false` and
the static one with `true`, and delivering any batch through a
subscription inserts every accepted announcement with exactly that flag,
regardless of announcement content. -/
theorem flag_fixed_at_registration (buf : BufferState) (spin : Bool)
    (qos static_qos : Nat) (options static_options : SubscriptionOptions)
    (tf_ns : String) (r : InitResult)
    (h : TransformListener.init Env.allOk buf spin qos static_qos options
        static_options tf_ns = Except.ok r) :
    r.st.message_subscription_tf_.bound_is_static = false ∧
    r.st.message_subscription_tf_static_.bound_is_static = true ∧
    (∀ (ok : TransformStamped → Bool) (b2 : BufferState) (msg : TFMessage),
      (deliver ok b2 r.st.message_subscription_tf_ msg).buf.inserted =
        b2.inserted ++ (msg.filter ok).map (fun t => (t, false))) ∧
    (∀ (ok : TransformStamped → Bool) (b2 : BufferState) (msg : TFMessage),
      (deliver ok b2 r.st.message_subscription_tf_static_ msg).buf.inserted =
        b2.inserted ++ (msg.filter ok).map (fun t => (t, true))) := by
  rw [init_allOk] at h
  injection h with h
  subst h
  refine ⟨?_, ?_, ?_, ?_⟩
  · cases spin <;> rfl
  · cases spin <;> rfl
  · intro ok b2 msg
    have hb : (initOkResult buf spin qos static_qos options static_options
        tf_ns).st.message_subscription_tf_.bound_is_static = false := by
      cases spin <;> rfl
    rw [deliver, hb]
    exact subscription_callback_inserted ok msg b2 false
  · intro ok b2 msg
    have hb : (initOkResult buf spin qos static_qos options static_options
        tf_ns).st.message_subscription_tf_static_.bound_is_static = true := by
      cases spin <;> rfl
    rw [deliver, hb]
    exact subscription_callback_inserted ok msg b2 true

theorem flag_fixed_at_registration_inst :
    (TransformListener.init Env.allOk ⟨false, []⟩ false 10 1
        detail.get_default_transform_listener_sub_options
        detail.get_default_transform_listener_static_sub_options "" =
      Except.ok (initOkResult ⟨false, []⟩ false 10 1
        detail.get_default_transform_listener_sub_options
        detail.get_default_transform_listener_static_sub_options "")) ∧
    (initOkResult ⟨false, []⟩ false 10 1
        detail.get_default_transform_listener_sub_options
        detail.get_default_transform_listener_static_sub_options
        "").st.message_subscription_tf_.bound_is_static = false := by
  refine ⟨rfl, ?_⟩
  exact (flag_fixed_at_registration ⟨false, []⟩ false 10 1
    detail.get_default_transform_listener_sub_options
    detail.get_default_transform_listener_static_sub_options "" _ rfl).1

/-- C2 counterexample: in the code, `init` with `spin_thread = true` starts
the dedicated listener thread (transform_listener.h line 214) and only then
calls `buffer_.setUsingDedicatedThread(true)` (line 216).  At a concrete
input, both events occur in the trace, yet the `setUsingDedicatedThread`
call does not precede the thread start — refuting the claim that the call
happens before the background thread is started. -/
theorem setUsingDedicatedThread_before_thread_start_cex :
    (TransformListener.init Env.allOk ⟨false, []⟩ true 10 1
        detail.get_default_transform_listener_sub_options
        detail.get_default_transform_listener_static_sub_options "" =
      Except.ok (initOkResult ⟨false, []⟩ true 10 1
        detail.get_default_transform_listener_sub_options
        detail.get_default_transform_listener_static_sub_options "")) ∧
    Event.setUsingDedicatedThreadCall true ∈
      (initOkResult ⟨false, []⟩ true 10 1
        detail.get_default_transform_listener_sub_options
        detail.get_default_transform_listener_static_sub_options "").trace ∧
    Event.startThread 0 ∈
      (initOkResult ⟨false, []⟩ true 10 1
        detail.get_default_transform_listener_sub_options
        detail.get_default_transform_listener_static_sub_options "").trace ∧
    ¬ ((initOkResult ⟨false, []⟩ true 10 1
        detail.get_default_transform_listener_sub_options
        detail.get_default_transform_listener_static_sub_options
        "").trace.findIdx Event.isSetUsingDedicatedThreadCall <
      (initOkResult ⟨false, []⟩ true 10 1
        detail.get_default_transform_listener_sub_options
        detail.get_default_transform_listener_static_sub_options
        "").trace.findIdx Event.isStartThread) := by
  refine ⟨rfl, ?_, ?_, ?_⟩ <;> decide

/-- C2 (amended): when constructed with `spin_thread = true`, the listener
calls `setUsingDedicatedThread(true)` exactly once, as the last step of
`init` — after the background thread is started, not before — and the
buffer's dedicated-thread flag is true once construction completes. -/
theorem setUsingDedicatedThread_once_after_thread_start (buf : BufferState)
    (qos static_qos : Nat) (options static_options : SubscriptionOptions)
    (tf_ns : String) (r : InitResult)
    (h : TransformListener.init Env.allOk buf true qos static_qos options
        static_options tf_ns = Except.ok r) :
    r.trace.countP Event.isSetUsingDedicatedThreadCall = 1 ∧
    Event.setUsingDedicatedThreadCall true ∈ r.trace ∧
    r.trace.findIdx Event.isStartThread <
      r.trace.findIdx Event.isSetUsingDedicatedThreadCall ∧
    r.buf.usingDedicatedThread = true := by
  rw [init_allOk] at h
  injection h with h
  subst h
  refine ⟨?_, ?_, ?_, rfl⟩ <;>
    simp [initOkResult, List.countP_cons, List.findIdx_cons,
      Event.isSetUsingDedicatedThreadCall, Event.isStartThread]

theorem setUsingDedicatedThread_once_after_thread_start_inst :
    (TransformListener.init Env.allOk ⟨false, []⟩ true 10 1
        detail.get_default_transform_listener_sub_options
        detail.get_default_transform_listener_static_sub_options "" =
      Except.ok (initOkResult ⟨false, []⟩ true 10 1
        detail.get_default_transform_listener_sub_options
        detail.get_default_transform_listener_static_sub_options "")) ∧
    (initOkResult ⟨false, []⟩ true 10 1
        detail.get_default_transform_listener_sub_options
        detail.get_default_transform_listener_static_sub_options
        "").trace.countP Event.isSetUsingDedicatedThreadCall = 1 := by
  refine ⟨rfl, ?_⟩
  exact (setUsingDedicatedThread_once_after_thread_start ⟨false, []⟩ 10 1
    detail.get_default_transform_listener_sub_options
    detail.get_default_transform_listener_static_sub_options "" _ rfl).1

/-- C3: starting from a buffer whose dedicated-thread flag is false, after
construction the flag equals the `spin_thread` mode, a background thread
handle (and executor) exists iff the mode is dedicated, and message
processing never changes the flag thereafter. -/
theorem dedicated_flag_iff_dedicated_mode (buf : BufferState) (spin : Bool)
    (qos static_qos : Nat) (options static_options : SubscriptionOptions)
    (tf_ns : String) (r : InitResult)
    (hbuf : buf.usingDedicatedThread = false)
    (h : TransformListener.init Env.allOk buf spin qos static_qos options
        static_options tf_ns = Except.ok r) :
    r.buf.usingDedicatedThread = spin ∧
    r.st.dedicated_listener_thread_.isSome = spin ∧
    r.st.executor_.isSome = spin ∧
    (∀ (ok : TransformStamped → Bool) (b2 : BufferState) (msg : TFMessage)
      (b : Bool),
      (subscription_callback ok b2 msg b).buf.usingDedicatedThread =
        b2.usingDedicatedThread) := by
  rw [init_allOk] at h
  injection h with h
  subst h
  refine ⟨?_, ?_, ?_, fun ok b2 msg b => subscription_callback_flag ok msg b2 b⟩ <;>
    cases spin <;> simp [initOkResult, setUsingDedicatedThread, hbuf]

theorem dedicated_flag_iff_dedicated_mode_inst :
    ((⟨false, []⟩ : BufferState).usingDedicatedThread = false) ∧
    (TransformListener.init Env.allOk ⟨false, []⟩ false 10 1
        detail.get_default_transform_listener_sub_options
        detail.get_default_transform_listener_static_sub_options "" =
      Except.ok (initOkResult ⟨false, []⟩ false 10 1
        detail.get_default_transform_listener_sub_options
        detail.get_default_transform_listener_static_sub_options "")) ∧
    (initOkResult ⟨false, []⟩ false 10 1
        detail.get_default_transform_listener_sub_options
        detail.get_default_transform_listener_static_sub_options
        "").st.dedicated_listener_thread_.isSome = false := by
  refine ⟨rfl, rfl, ?_⟩
  exact (dedicated_flag_iff_dedicated_mode ⟨false, []⟩ false 10 1
    detail.get_default_transform_listener_sub_options
    detail.get_default_transform_listener_static_sub_options "" _ rfl rfl).2.1

/-- C4: a batch in which exactly one announcement is rejected by the
buffer yields exactly `length - 1` successful insertions, at least one
diagnostic, and every entry of the batch is still processed (the batch is
not aborted). -/
theorem bad_entry_never_aborts_batch (ok : TransformStamped → Bool)
    (buf : BufferState) (msg : TFMessage) (b : Bool)
    (h : msg.countP (fun t => !(ok t)) = 1) :
    (subscription_callback ok buf msg b).successes = msg.length - 1 ∧
    1 ≤ (subscription_callback ok buf msg b).diagnostics ∧
    (subscription_callback ok buf msg b).processed = msg.length := by
  obtain ⟨hs, hd, hp⟩ := subscription_callback_counts ok msg buf b
  have htot := countP_ok_add_countP_not ok msg
  refine ⟨?_, ?_, hp⟩ <;> omega

/-- A concrete buffer-acceptance predicate: reject self-parenting
announcements (one of the malformation examples in the spec). -/
def rejectSelfParent : TransformStamped → Bool :=
  fun t => !(t.child_frame_id == t.frame_id)

/-- A concrete batch of three announcements, the last self-parented. -/
def batchOneBad : TFMessage :=
  [{ frame_id := "odom", child_frame_id := "robot", stamp := 1,
     authority := "a" },
   { frame_id := "map", child_frame_id := "odom", stamp := 1,
     authority := "a" },
   { frame_id := "base", child_frame_id := "base", stamp := 0,
     authority := "a" }]

theorem bad_entry_never_aborts_batch_inst :
    batchOneBad.countP (fun t => !(rejectSelfParent t)) = 1 ∧
    ((subscription_callback rejectSelfParent ⟨true, []⟩ batchOneBad
        false).successes = batchOneBad.length - 1 ∧
      1 ≤ (subscription_callback rejectSelfParent ⟨true, []⟩ batchOneBad
        false).diagnostics ∧
      (subscription_callback rejectSelfParent ⟨true, []⟩ batchOneBad
        false).processed = batchOneBad.length) :=
  ⟨by decide,
   bad_entry_never_aborts_batch rejectSelfParent ⟨true, []⟩ batchOneBad false
     (by decide)⟩

/-- C5: in dedicated mode, `init` creates exactly one callback group
(mutually exclusive, not auto-added to any caller-owned executor), places
exactly the two subscriptions in it (overwriting any caller-supplied
group in the options), creates exactly one single-threaded executor bound
to exactly that group, and starts exactly one background thread. -/
theorem dedicated_setup_isolated_group (buf : BufferState)
    (qos static_qos : Nat) (options static_options : SubscriptionOptions)
    (tf_ns : String) (r : InitResult)
    (h : TransformListener.init Env.allOk buf true qos static_qos options
        static_options tf_ns = Except.ok r) :
    r.trace.countP Event.isCreateCallbackGroup = 1 ∧
    Event.createCallbackGroup CallbackGroupType.MutuallyExclusive false 0 ∈
      r.trace ∧
    r.st.callback_group_ = some 0 ∧
    r.st.message_subscription_tf_.options.callback_group = some 0 ∧
    r.st.message_subscription_tf_static_.options.callback_group = some 0 ∧
    r.trace.countP Event.isCreateSubscription = 2 ∧
    r.trace.countP Event.isCreateExecutor = 1 ∧
    Event.createExecutor true 0 ∈ r.trace ∧
    r.trace.countP Event.isAddCallbackGroup = 1 ∧
    Event.addCallbackGroup 0 0 ∈ r.trace ∧
    r.trace.countP Event.isStartThread = 1 ∧
    r.st.dedicated_listener_thread_ = some 0 := by
  rw [init_allOk] at h
  injection h with h
  subst h
  refine ⟨?_, ?_, rfl, rfl, rfl, ?_, ?_, ?_, ?_, ?_, ?_, rfl⟩ <;>
    simp [initOkResult, List.countP_cons, Event.isCreateCallbackGroup,
      Event.isCreateSubscription, Event.isCreateExecutor,
      Event.isAddCallbackGroup, Event.isStartThread]

theorem dedicated_setup_isolated_group_inst :
    (TransformListener.init Env.allOk ⟨false, []⟩ true 10 1
        detail.get_default_transform_listener_sub_options
        detail.get_default_transform_listener_static_sub_options "" =
      Except.ok (initOkResult ⟨false, []⟩ true 10 1
        detail.get_default_transform_listener_sub_options
        detail.get_default_transform_listener_static_sub_options "")) ∧
    (initOkResult ⟨false, []⟩ true 10 1
        detail.get_default_transform_listener_sub_options
        detail.get_default_transform_listener_static_sub_options
        "").trace.countP Event.isStartThread = 1 := by
  refine ⟨rfl, ?_⟩
  exact (dedicated_setup_isolated_group ⟨false, []⟩ 10 1
    detail.get_default_transform_listener_sub_options
    detail.get_default_transform_listener_static_sub_options "" _
    rfl).2.2.2.2.2.2.2.2.2.2.1

/-- C6: destroying a listener constructed in dedicated mode cancels the
executor's loop and joins the background thread strictly before
destruction completes; the teardown trace contains no buffer insertion,
so no further `insertTransform` call occurs after destruction returns. -/
theorem destructor_joins_before_completion (buf : BufferState)
    (qos static_qos : Nat) (options static_options : SubscriptionOptions)
    (tf_ns : String) (r : InitResult)
    (h : TransformListener.init Env.allOk buf true qos static_qos options
        static_options tf_ns = Except.ok r) :
    TransformListener.destructor r.st =
      [DtorEvent.cancelExecutor, DtorEvent.joinThread,
       DtorEvent.destructionComplete] ∧
    (TransformListener.destructor r.st).findIdx
        (fun e => e == DtorEvent.joinThread) <
      (TransformListener.destructor r.st).findIdx
        (fun e => e == DtorEvent.destructionComplete) := by
  rw [init_allOk] at h
  injection h with h
  subst h
  have hd : TransformListener.destructor
      (initOkResult buf true qos static_qos options static_options tf_ns).st =
      [DtorEvent.cancelExecutor, DtorEvent.joinThread,
       DtorEvent.destructionComplete] := rfl
  rw [hd]
  exact ⟨rfl, by decide⟩

theorem destructor_joins_before_completion_inst :
    (TransformListener.init Env.allOk ⟨false, []⟩ true 10 1
        detail.get_default_transform_listener_sub_options
        detail.get_default_transform_listener_static_sub_options "" =
      Except.ok (initOkResult ⟨false, []⟩ true 10 1
        detail.get_default_transform_listener_sub_options
        detail.get_default_transform_listener_static_sub_options "")) ∧
    TransformListener.destructor (initOkResult ⟨false, []⟩ true 10 1
        detail.get_default_transform_listener_sub_options
        detail.get_default_transform_listener_static_sub_options "").st =
      [DtorEvent.cancelExecutor, DtorEvent.joinThread,
       DtorEvent.destructionComplete] := by
  refine ⟨rfl, ?_⟩
  exact (destructor_joins_before_completion ⟨false, []⟩ 10 1
    detail.get_default_transform_listener_sub_options
    detail.get_default_transform_listener_static_sub_options "" _ rfl).1

/-- C7: if creating either subscription fails, or thread start fails in
dedicated mode, `init` propagates the error: construction fails outright
and no listener state is produced. -/
theorem construction_failure_is_fatal (env : Env) (buf : BufferState)
    (spin : Bool) (qos static_qos : Nat)
    (options static_options : SubscriptionOptions) (tf_ns : String)
    (h : env.subCreateOk (tf_ns ++ "/tf") = false ∨
         env.subCreateOk (tf_ns ++ "/tf_static") = false ∨
         (spin = true ∧ env.threadStartOk = false)) :
    ∃ e, TransformListener.init env buf spin qos static_qos options
        static_options tf_ns = Except.error e := by
  cases spin with
  | false =>
    rcases h with h | h | ⟨hs, _⟩
    · exact ⟨"failed to create subscription on " ++ (tf_ns ++ "/tf"),
        by simp [TransformListener.init, createSubscriptionE, h]⟩
    · by_cases h1 : env.subCreateOk (tf_ns ++ "/tf")
      · exact ⟨"failed to create subscription on " ++ (tf_ns ++ "/tf_static"),
          by simp [TransformListener.init, createSubscriptionE, h, h1]⟩
      · exact ⟨"failed to create subscription on " ++ (tf_ns ++ "/tf"),
          by simp [TransformListener.init, createSubscriptionE, h1]⟩
    · cases hs
  | true =>
    rcases h with h | h | ⟨_, ht⟩
    · exact ⟨"failed to create subscription on " ++ (tf_ns ++ "/tf"),
        by simp [TransformListener.init, createSubscriptionE, h]⟩
    · by_cases h1 : env.subCreateOk (tf_ns ++ "/tf")
      · exact ⟨"failed to create subscription on " ++ (tf_ns ++ "/tf_static"),
          by simp [TransformListener.init, createSubscriptionE, h, h1]⟩
      · exact ⟨"failed to create subscription on " ++ (tf_ns ++ "/tf"),
          by simp [TransformListener.init, createSubscriptionE, h1]⟩
    · by_cases h1 : env.subCreateOk (tf_ns ++ "/tf")
      · by_cases h2 : env.subCreateOk (tf_ns ++ "/tf_static")
        · exact ⟨"failed to start dedicated listener thread", by
            simp [TransformListener.init, createSubscriptionE, h1, h2, ht]⟩
        · exact ⟨"failed to create subscription on " ++ (tf_ns ++ "/tf_static"),
            by simp [TransformListener.init, createSubscriptionE, h1, h2]⟩
      · exact ⟨"failed to create subscription on " ++ (tf_ns ++ "/tf"),
          by simp [TransformListener.init, createSubscriptionE, h1]⟩

/-- An environment in which every subscription creation fails. -/
def envSubFail : Env :=
  { subCreateOk := fun _ => false, threadStartOk := true }

theorem construction_failure_is_fatal_inst :
    envSubFail.subCreateOk ("" ++ "/tf") = false ∧
    ∃ e, TransformListener.init envSubFail ⟨false, []⟩ true 10 1
        detail.get_default_transform_listener_sub_options
        detail.get_default_transform_listener_static_sub_options "" =
      Except.error e :=
  ⟨rfl,
   construction_failure_is_fatal envSubFail ⟨false, []⟩ true 10 1
     detail.get_default_transform_listener_sub_options
     detail.get_default_transform_listener_static_sub_options ""
     (Or.inl rfl)⟩

end tf2_ros
